import Mathlib

/-!
Shallow embedding of `src/pgsql-dbus.c`: a small sd-bus service exposing a
PostgreSQL instance as the D-Bus interface `org.postgresql.instance`.

The embedding keeps the source's names.  External collaborators (libpq, the
sd-bus transport) are modelled as explicit inputs:

* the connection and the result a query produces are fields of a `DBWorld`
  value handed to the handler (libpq is a black box to this program);
* sd-bus message construction (`sd_bus_message_new_method_return`,
  `open_container`, `append`, `close_container`, `sd_bus_send`) is modelled
  as infallible builder steps — the transport's internal failures (OOM) are
  outside the embedding — so the only negative return code reaching the
  handler's `rc < 0` early returns is the one produced by
  `sd_bus_message_append_pgsql_value` itself;
* `PQgetvalue` returns an `Option String`: `none` models the NULL pointer
  libpq returns for an out-of-range tuple or field number (in-range SQL NULL
  values come back as the empty string, never as NULL);
* dereferencing such a NULL (`*value` in the boolean branch, `strtol(value)`
  in the numeric branches) is undefined behaviour in C; the embedding marks
  it with a distinguished `crash` outcome;
* the double branch parses with `strtod`; floating point is outside the
  embedding, so the parsed double is represented opaquely by its source text
  (no claim concerns the double branch).
-/

/-- Per-instance state (`struct context` in the source): the database
endpoint.  `port` holds a `uint16_t` value. -/
structure context where
  host : String
  port : Nat
deriving DecidableEq, Repr

/-! Type oid constants, values taken from PostgreSQL's `pg_type_d.h`
(included by the source). -/

def BOOLOID : Nat := 16
def NAMEOID : Nat := 19
def INT8OID : Nat := 20
def INT2OID : Nat := 21
def INT4OID : Nat := 23
def OIDOID : Nat := 26
def TEXTOID : Nat := 25
def JSONOID : Nat := 114
def XMLOID : Nat := 142
def FLOAT4OID : Nat := 700
def FLOAT8OID : Nat := 701
def BPCHAROID : Nat := 1042
def VARCHAROID : Nat := 1043

/-- The oids the two `switch` statements of the source enumerate. -/
def knownOids : List Nat :=
  [BOOLOID, INT2OID, OIDOID, INT4OID, INT8OID, FLOAT4OID, FLOAT8OID,
   XMLOID, JSONOID, VARCHAROID, BPCHAROID, NAMEOID, TEXTOID]

/-- `oid_to_signature` (source lines 33–55): the type mapper.  The C `switch`
with fallthrough groups becomes a chain of conditionals; the `default`
branch returns `'s'`. -/
def oid_to_signature (oid : Nat) : Char :=
  if oid = BOOLOID then 'b'
  else if oid = INT2OID then 'n'
  else if oid = OIDOID ∨ oid = INT4OID then 'i'
  else if oid = INT8OID then 'x'
  else if oid = FLOAT4OID ∨ oid = FLOAT8OID then 'd'
  else if oid = XMLOID ∨ oid = JSONOID ∨ oid = VARCHAROID ∨ oid = BPCHAROID ∨
          oid = NAMEOID ∨ oid = TEXTOID then 's'
  else 's'

/-- The wire-tag table of spec section 4.1, written from the spec's words
(not from the source): boolean ↦ `b`, 16-bit integer ↦ `n`, 32-bit integer
and object-id-like ↦ `i`, 64-bit integer ↦ `x`, 32- or 64-bit float ↦ `d`,
text-likes and every identifier outside the domain ↦ `s`.  Kept separate
from `oid_to_signature` so the two can be compared. -/
def specWireTag (oid : Nat) : Char :=
  if oid = BOOLOID then 'b'
  else if oid = INT2OID then 'n'
  else if oid = INT4OID ∨ oid = OIDOID then 'i'
  else if oid = INT8OID then 'x'
  else if oid = FLOAT4OID ∨ oid = FLOAT8OID then 'd'
  else 's'

/-! ## The C standard library's string-to-number conversions -/

/-- `isspace` in the C locale: space, `\t`, `\n`, `\v`, `\f`, `\r`. -/
def isSpaceC (c : Char) : Bool :=
  c.toNat = 32 || c.toNat = 9 || c.toNat = 10 ||
  c.toNat = 11 || c.toNat = 12 || c.toNat = 13

/-- The decimal digit test `strtol` applies ('0'–'9'). -/
def isDigitC (c : Char) : Bool :=
  48 ≤ c.toNat && c.toNat ≤ 57

/-- Sign handling of `strtol`: one optional leading `-` or `+`. -/
def splitSign (cs : List Char) : Bool × List Char :=
  match cs with
  | [] => (false, [])
  | c :: t => if c = '-' then (true, t) else if c = '+' then (false, t) else (false, c :: t)

/-- On overflow `strtol`/`strtoll` clamp to the bounds of `long`
(64-bit on the platforms this program targets). -/
def clampLong (v : Int) : Int :=
  if v < -9223372036854775808 then -9223372036854775808
  else if v > 9223372036854775807 then 9223372036854775807
  else v

/-- `strtol(value, NULL, 10)` on the characters of the argument: skip
leading whitespace, read one optional sign, fold the longest run of decimal
digits (no digits gives 0), ignore everything after it, clamp to the range
of `long`. -/
def strtolList (cs0 : List Char) : Int :=
  let cs := cs0.dropWhile isSpaceC
  let sc := splitSign cs
  let ds := sc.2.takeWhile isDigitC
  let mag : Nat := ds.foldl (fun a c => a * 10 + (c.toNat - 48)) 0
  clampLong (if sc.1 then -(mag : Int) else (mag : Int))

/-- `strtol(value, NULL, 10)` (and `strtoll`, since `long` is 64-bit on the
platforms this program targets). -/
def strtolModel (s : String) : Int := strtolList s.data

/-- The conversion `(int16_t) long`: two's-complement wrap (gcc/clang
semantics for a narrowing signed conversion). -/
def wrap16 (v : Int) : Int := (v + 32768) % 65536 - 32768

/-- The conversion `(int32_t) long`: two's-complement wrap. -/
def wrap32 (v : Int) : Int := (v + 2147483648) % 4294967296 - 2147483648

/-- Reading `*value` from a C string: the first character, or NUL for the
empty string. -/
def cFirstChar (s : String) : Char := s.data.headD (Char.ofNat 0)

/-! ## The value encoder -/

/-- A basic value appended to the reply message by
`sd_bus_message_append_basic`.  The `d` constructor carries the text handed
to `strtod`: the parsed double is opaque to the embedding. -/
inductive DBusValue where
  | b (bl : Bool)
  | n16 (v : Int)
  | i32 (v : Int)
  | x64 (v : Int)
  | d (text : String)
  | s (text : String)
deriving DecidableEq, Repr

/-- What one call of the value encoder does. -/
inductive EncResult where
  | ok (v : DBusValue)
  | err (rc : Int)
  | crash
deriving DecidableEq, Repr

/-- `sd_bus_message_append_pgsql_value` (source lines 57–103).  The `switch`
is on `oid`, not on `sig`; `sig` is only forwarded to
`sd_bus_message_append_basic` (modelled infallible, so it does not shape the
result).  `value` is the possibly-NULL `char *` from `PQgetvalue`;
dereferencing NULL (`*value`, `strtol(value)`, `strtod(value)`) is the
`crash` outcome.  `sd_bus_message_append_basic` with a NULL string pointer
is rejected by sd-bus with `-EINVAL` (−22).  The `default` branch returns
−1. -/
def sd_bus_message_append_pgsql_value (sig : Char) (oid : Nat) (value : Option String) :
    EncResult :=
  if oid = BOOLOID then
    match value with
    | none => .crash
    | some v => .ok (.b (cFirstChar v = 't'))
  else if oid = INT2OID then
    match value with
    | none => .crash
    | some v => .ok (.n16 (wrap16 (strtolModel v)))
  else if oid = OIDOID ∨ oid = INT4OID then
    match value with
    | none => .crash
    | some v => .ok (.i32 (wrap32 (strtolModel v)))
  else if oid = INT8OID then
    match value with
    | none => .crash
    | some v => .ok (.x64 (strtolModel v))
  else if oid = FLOAT4OID ∨ oid = FLOAT8OID then
    match value with
    | none => .crash
    | some v => .ok (.d v)
  else if oid = XMLOID ∨ oid = JSONOID ∨ oid = VARCHAROID ∨ oid = BPCHAROID ∨
          oid = NAMEOID ∨ oid = TEXTOID then
    match value with
    | none => .err (-22)
    | some v => .ok (.s v)
  else .err (-1)

/-! ## The libpq world -/

/-- `CONNECTION_OK` in libpq's `ConnStatusType`. -/
def CONNECTION_OK : Nat := 0

/-- `PGRES_TUPLES_OK` in libpq's `ExecStatusType`. -/
def PGRES_TUPLES_OK : Nat := 2

/-- The connection `PQconnectdbParams` hands back: its status code and the
text `PQerrorMessage` returns for it. -/
structure PGconnModel where
  status : Nat
  errorMessage : String
deriving DecidableEq, Repr

/-- The result `PQexec` hands back for the request's query: the result
status, the columns (name and type oid, in column order) and the tuples
(row-major; SQL NULL comes back from `PQgetvalue` as `""`). -/
structure PGresultModel where
  status : Nat
  fields : List (String × Nat)
  rows : List (List String)
deriving DecidableEq, Repr

/-- The external database behaviour a single Query request observes. -/
structure DBWorld where
  conn : PGconnModel
  result : PGresultModel
deriving DecidableEq, Repr

/-- `PQgetvalue(res, tup, i)`: NULL (`none`) when the tuple or field number
is out of range, otherwise the stored text. -/
def PQgetvalue (r : PGresultModel) (tup i : Nat) : Option String :=
  match r.rows.get? tup with
  | none => none
  | some row => row.get? i

/-! ## The request dispatcher -/

/-- How a handler run ends, seen from the bus.  A negative return code from
an sd-bus method handler (with no reply sent and `ret_error` unset) makes
the sd-bus dispatcher send an errno-derived error reply to the caller, so
`errCode` does cross the protocol boundary as an error; `crash` is the
undefined-behaviour marker (no reply at all). -/
inductive QueryOutcome where
  | errorReply (name : String) (msg : String)
  | emptyReply
  | reply (entries : List (String × DBusValue))
  | errCode (rc : Int)
  | crash
deriving DecidableEq, Repr

/-- `true` for the outcomes the caller observes as a protocol-level error. -/
def crossesAsError : QueryOutcome → Bool
  | .errorReply _ _ => true
  | .errCode _ => true
  | _ => false

/-- The error name `SD_BUS_ERROR_INVALID_ARGS` expands to. -/
def invalidArgsName : String := "org.freedesktop.DBus.Error.InvalidArgs"

/-- One run of `method_query` or `method_ping`, with the resource events the
source performs on the way recorded next to the outcome. -/
structure QueryTrace where
  outcome : QueryOutcome
  connOpened : Bool
  connFinished : Bool
  queryExecuted : Bool
  resCleared : Bool
  logged : List String
  ctxAfter : context
deriving DecidableEq, Repr

/-- The `fprintf(stderr, "connecting to %s: %s, %s: %s\n", ...)` line of
`method_query` (keys are the literals `"host"` and `"port"`, values the
context's fields; the port is printed with `sprintf(port, "%d", c->port)`). -/
def connectLine (c : context) : String :=
  "connecting to host: " ++ c.host ++ ", port: " ++ toString c.port

/-- Outcome of the result-building loop: the entries appended in column
order, or the first failure. -/
inductive BuildResult where
  | ok (entries : List (String × DBusValue))
  | err (rc : Int)
  | crash
deriving DecidableEq, Repr

/-- The result-building loop of `method_query` (source lines 198–229): `i`
is the loop counter, the list argument the columns not yet encoded (the loop
reads column `i`'s name, oid and row-0 value through `PQfname`, `PQftype`
and `PQgetvalue`).  Every sd-bus container/append step is modelled
infallible, so the only early exit is a failing
`sd_bus_message_append_pgsql_value`. -/
def buildRowFrom (r : PGresultModel) (i : Nat) : List (String × Nat) → BuildResult
  | [] => .ok []
  | (fname, oid) :: rest =>
    match sd_bus_message_append_pgsql_value (oid_to_signature oid) oid (PQgetvalue r 0 i) with
    | .ok v =>
      match buildRowFrom r (i + 1) rest with
      | .ok es => .ok ((fname, v) :: es)
      | .err rc => .err rc
      | .crash => .crash
    | .err rc => .err rc
    | .crash => .crash

/-- `method_query` (source lines 142–243).  `arg` is what
`sd_bus_message_read(m, "s", &query)` produced: `none` when the message
carries no single string (the `rc < 0` branch), `some query` otherwise. -/
def method_query (c : context) (arg : Option String) (w : DBWorld) : QueryTrace :=
  match arg with
  | none =>
    { outcome := .errorReply invalidArgsName "Expected interface parameter",
      connOpened := false, connFinished := false, queryExecuted := false,
      resCleared := false, logged := [], ctxAfter := c }
  | some _query =>
    if w.conn.status ≠ CONNECTION_OK then
      { outcome := .emptyReply, connOpened := true, connFinished := true,
        queryExecuted := false, resCleared := false,
        logged := [connectLine c,
                   "Connection to database failed: " ++ w.conn.errorMessage],
        ctxAfter := c }
    else if w.result.status ≠ PGRES_TUPLES_OK then
      { outcome := .emptyReply, connOpened := true, connFinished := true,
        queryExecuted := true, resCleared := true,
        logged := [connectLine c, "query failed: " ++ w.conn.errorMessage],
        ctxAfter := c }
    else
      match buildRowFrom w.result 0 w.result.fields with
      | .ok entries =>
        { outcome := .reply entries, connOpened := true, connFinished := true,
          queryExecuted := true, resCleared := true,
          logged := [connectLine c, "query succeed!"], ctxAfter := c }
      | .err rc =>
        { outcome := .errCode rc, connOpened := true, connFinished := false,
          queryExecuted := true, resCleared := false,
          logged := [connectLine c, "query succeed!"], ctxAfter := c }
      | .crash =>
        { outcome := .crash, connOpened := true, connFinished := false,
          queryExecuted := true, resCleared := false,
          logged := [connectLine c, "query succeed!"], ctxAfter := c }

/-- The log line `method_ping` writes for each `PQpingParams` outcome
(`PQPING_OK` = 0, `PQPING_REJECT` = 1, `PQPING_NO_RESPONSE` = 2,
`PQPING_NO_ATTEMPT` = 3, anything else the `default` branch). -/
def pingLog (rc : Nat) : String :=
  if rc = 0 then "accepting connections"
  else if rc = 1 then "rejecting connections"
  else if rc = 2 then "no response"
  else if rc = 3 then "no attempt"
  else "unknown"

/-- What `method_ping` leaves behind: the `"q"` reply value and the log. -/
structure PingTrace where
  replied : Nat
  logged : List String
  ctxAfter : context
deriving DecidableEq, Repr

/-- `method_ping` (source lines 105–139): probe with `PQpingParams` (its
outcome `pingRc` is the external world's input), log the classification,
reply the raw code as a `"q"` value. -/
def method_ping (c : context) (pingRc : Nat) : PingTrace :=
  { replied := pingRc, logged := [pingLog pingRc], ctxAfter := c }

/-! ## Spec-side vocabulary for the claims -/

/-- The numeric value of a big-endian decimal digit string. -/
def decMag (ds : List Char) : Nat :=
  Nat.ofDigits 10 ((ds.map fun c => c.toNat - 48).reverse)

/-- `s` is a well-formed base-10 signed integer string of value `n`: one
optional sign followed by a nonempty run of decimal digits and nothing
else. -/
def SignedDecRepr (s : String) (n : Int) : Prop :=
  ∃ ds : List Char, ds ≠ [] ∧ (∀ c ∈ ds, isDigitC c = true) ∧
    ((s.data = ds ∧ n = (decMag ds : Int)) ∨
     (s.data = '+' :: ds ∧ n = (decMag ds : Int)) ∨
     (s.data = '-' :: ds ∧ n = -(decMag ds : Int)))

/-! ## Concrete inputs used by the counterexample and code-bug theorems -/

/-- The context `main` initialises: host `"/tmp"`, port 15433. -/
def ctx0 : context := { host := "/tmp", port := 15433 }

/-- A healthy world whose single result column has type oid 1184
(`TIMESTAMPTZOID`, a type outside the `switch`es of the source) and whose
single row carries its text. -/
def wUnknownOid : DBWorld :=
  { conn := { status := CONNECTION_OK, errorMessage := "" },
    result := { status := PGRES_TUPLES_OK,
                fields := [("ts", 1184)],
                rows := [["2024-01-01 00:00:00+00"]] } }

/-- A healthy world whose query yielded tuples, one `int4` column and zero
rows (e.g. `SELECT 1 AS x WHERE false`). -/
def wZeroRows : DBWorld :=
  { conn := { status := CONNECTION_OK, errorMessage := "" },
    result := { status := PGRES_TUPLES_OK, fields := [("x", INT4OID)], rows := [] } }

/-- A world whose connection attempt did not reach `CONNECTION_OK`. -/
def wConnBad : DBWorld :=
  { conn := { status := 1, errorMessage := "could not connect" },
    result := { status := PGRES_TUPLES_OK, fields := [], rows := [] } }

/-! ## Helper lemmas -/

/-- A decimal digit is not whitespace. -/
theorem isSpaceC_eq_false_of_digit (c : Char) (h : isDigitC c = true) :
    isSpaceC c = false := by
  simp only [isDigitC, Bool.and_eq_true, decide_eq_true_eq] at h
  simp only [isSpaceC, Bool.or_eq_false_iff, decide_eq_false_iff_not]
  omega

/-- A decimal digit is neither sign character. -/
theorem ne_sign_of_digit (c : Char) (h : isDigitC c = true) :
    c ≠ '-' ∧ c ≠ '+' := by
  simp only [isDigitC, Bool.and_eq_true, decide_eq_true_eq] at h
  constructor <;> rintro rfl <;> exact absurd h (by decide)

/-- `takeWhile` run against a block that satisfies the test followed by a
tail whose head fails it keeps exactly the block. -/
theorem takeWhile_append_stop (p : Char → Bool) :
    ∀ (l1 l2 : List Char), (∀ c ∈ l1, p c = true) →
      (∀ c, l2.head? = some c → p c = false) →
      (l1 ++ l2).takeWhile p = l1 := by
  intro l1
  induction l1 with
  | nil =>
    intro l2 _ h2
    cases l2 with
    | nil => rfl
    | cons a t => simp [List.takeWhile_cons, h2 a rfl]
  | cons a t ih =>
    intro l2 h1 h2
    simp [List.takeWhile_cons, h1 a (by simp),
          ih l2 (fun c hc => h1 c (by simp [hc])) h2]

/-- The digit fold of `strtolList` computes the decimal value. -/
theorem foldl_digits (ds : List Char) :
    ∀ acc : Nat, ds.foldl (fun a c => a * 10 + (c.toNat - 48)) acc
      = acc * 10 ^ ds.length + decMag ds := by
  induction ds with
  | nil => intro acc; simp [decMag, Nat.ofDigits]
  | cons c t ih =>
    intro acc
    have hdec : decMag (c :: t) = decMag t + 10 ^ t.length * (c.toNat - 48) := by
      unfold decMag
      rw [List.map_cons, List.reverse_cons, Nat.ofDigits_append]
      simp [Nat.ofDigits]
    simp only [List.foldl_cons, ih, List.length_cons, hdec]
    ring

/-- `splitSign` strips a leading `-` and records the negative sign. -/
theorem splitSign_dash (l : List Char) : splitSign ('-' :: l) = (true, l) := rfl

/-- `splitSign` strips a leading `+`. -/
theorem splitSign_plus (l : List Char) : splitSign ('+' :: l) = (false, l) := rfl

/-- What `strtolList` returns on one optional sign, a nonempty digit block
and a tail not starting with a digit. -/
theorem strtolList_spec (ds rest : List Char) (hne : ds ≠ [])
    (hd : ∀ c ∈ ds, isDigitC c = true)
    (hrest : ∀ c, rest.head? = some c → isDigitC c = false) :
    strtolList (ds ++ rest) = clampLong (decMag ds) ∧
    strtolList ('+' :: (ds ++ rest)) = clampLong (decMag ds) ∧
    strtolList ('-' :: (ds ++ rest)) = clampLong (-(decMag ds : Int)) := by
  obtain ⟨d0, ds', rfl⟩ : ∃ d0 ds', ds = d0 :: ds' := by
    cases ds with
    | nil => exact absurd rfl hne
    | cons a t => exact ⟨a, t, rfl⟩
  have hd0 : isDigitC d0 = true := hd d0 (by simp)
  have hsp : isSpaceC d0 = false := isSpaceC_eq_false_of_digit d0 hd0
  obtain ⟨hdash, hplus⟩ := ne_sign_of_digit d0 hd0
  have htake : ((d0 :: ds') ++ rest).takeWhile isDigitC = d0 :: ds' :=
    takeWhile_append_stop _ _ _ hd hrest
  have hfold := foldl_digits (d0 :: ds') 0
  refine ⟨?_, ?_, ?_⟩
  · unfold strtolList
    rw [List.cons_append, List.dropWhile_cons]
    simp only [hsp, if_false, Bool.false_eq_true]
    unfold splitSign
    simp only [hdash, hplus, if_false]
    rw [← List.cons_append, htake, hfold]
    simp
  · unfold strtolList
    rw [List.dropWhile_cons]
    rw [if_neg (by decide : ¬ isSpaceC '+' = true)]
    dsimp only
    rw [splitSign_plus]
    dsimp only
    rw [htake, hfold]
    simp
  · unfold strtolList
    rw [List.dropWhile_cons]
    rw [if_neg (by decide : ¬ isSpaceC '-' = true)]
    dsimp only
    rw [splitSign_dash]
    dsimp only
    rw [htake, hfold]
    simp

/-! ## The claims -/

/-- Claim C5: `oid_to_signature` is total and agrees everywhere with the
mapping table of spec section 4.1 — the table value on the known domain, the
string tag `'s'` on every identifier outside it. -/
theorem C5_mapType_matches_table : ∀ oid : Nat, oid_to_signature oid = specWireTag oid := by
  intro oid
  unfold oid_to_signature specWireTag BOOLOID INT2OID INT4OID OIDOID INT8OID
    FLOAT4OID FLOAT8OID XMLOID JSONOID VARCHAROID BPCHAROID NAMEOID TEXTOID
  split_ifs <;> first | rfl | omega

/-- Claim C1, counterexample: the claim says the `UnsupportedType` branch of
the value encoder is unreachable for every input the dispatcher can pass it.
It is not: for the column type oid 1184 (`TIMESTAMPTZOID`, unlisted in both
`switch`es) the dispatcher passes tag `oid_to_signature 1184 = 's'` together
with the oid itself, and the encoder's `default` branch returns −1. -/
theorem C1_counterexample :
    oid_to_signature 1184 = 's' ∧
    sd_bus_message_append_pgsql_value (oid_to_signature 1184) 1184
      (some "2024-01-01 00:00:00+00") = EncResult.err (-1) := by decide

/-- Claim C1, amended: on dispatcher-shaped inputs (tag `oid_to_signature
oid`, a non-NULL value) the encoder signals `UnsupportedType` (−1) exactly
for the ColumnTypeIds outside the known domain — the mapper's string default
does not prevent the error branch, because the encoder dispatches on the
oid, not on the tag. -/
theorem C1_unsupported_iff_unknown :
    ∀ (oid : Nat) (v : String),
      sd_bus_message_append_pgsql_value (oid_to_signature oid) oid (some v)
          = EncResult.err (-1)
        ↔ oid ∉ knownOids := by
  intro oid v
  unfold sd_bus_message_append_pgsql_value knownOids BOOLOID INT2OID INT4OID
    OIDOID INT8OID FLOAT4OID FLOAT8OID XMLOID JSONOID VARCHAROID BPCHAROID
    NAMEOID TEXTOID
  split_ifs <;> simp_all [List.mem_cons] <;> omega

/-- Claim C2: the connection and result resources do leak.  In the world
`wUnknownOid` (connection OK, tuples OK, one `timestamptz` column with a
row) the encoder's `default` branch makes the field loop hit `return rc`
with `rc = -1`, after `PQconnectdbParams` and `PQexec` but before `PQclear`
and `PQfinish`: the handler returns with the connection and the result
still live. -/
theorem C2_connection_leak :
    (method_query ctx0 (some "SELECT now() AS ts") wUnknownOid).connOpened = true ∧
    (method_query ctx0 (some "SELECT now() AS ts") wUnknownOid).queryExecuted = true ∧
    (method_query ctx0 (some "SELECT now() AS ts") wUnknownOid).connFinished = false ∧
    (method_query ctx0 (some "SELECT now() AS ts") wUnknownOid).resCleared = false ∧
    (method_query ctx0 (some "SELECT now() AS ts") wUnknownOid).outcome
      = QueryOutcome.errCode (-1) := by decide

/-- Claim C3, counterexample: the claim says only `InvalidArguments` ever
crosses the protocol boundary as an error.  In the world `wUnknownOid` the
handler returns −1 without sending a reply; sd-bus turns a negative handler
return into an errno-derived error reply, so an error that is not
`InvalidArguments` crosses the boundary. -/
theorem C3_counterexample :
    (method_query ctx0 (some "SELECT now() AS when_col") wUnknownOid).outcome
      = QueryOutcome.errCode (-1) ∧
    crossesAsError (QueryOutcome.errCode (-1)) = true ∧
    QueryOutcome.errCode (-1)
      ≠ QueryOutcome.errorReply invalidArgsName "Expected interface parameter" := by
  decide

/-- Claim C4: a zero-row result is not answered with an empty mapping.  In
the world `wZeroRows` (tuples OK, one `int4` column, zero rows) the loop
still iterates over the `PQnfields` columns, `PQgetvalue(res, 0, 0)` is out
of range and returns NULL, and the encoder's `int4` branch hands NULL to
`strtol` — undefined behaviour, not the empty reply the claim states. -/
theorem C4_zero_rows_crash :
    (method_query ctx0 (some "SELECT 1 AS x WHERE false") wZeroRows).outcome
      = QueryOutcome.crash ∧
    QueryOutcome.crash ≠ QueryOutcome.reply [] := by decide

/-- Claim C6: a Query message carrying no single string makes the handler
reply with the `InvalidArguments` protocol error at once; no connection is
attempted and no query executed, whatever the database world would do. -/
theorem C6_invalid_args_no_db :
    ∀ (c : context) (w : DBWorld),
      (method_query c none w).outcome
          = QueryOutcome.errorReply invalidArgsName "Expected interface parameter" ∧
      (method_query c none w).connOpened = false ∧
      (method_query c none w).queryExecuted = false := by
  intro c w
  exact ⟨rfl, rfl, rfl⟩

/-- Claim C7: boolean encoding has no error path — it always produces a
boolean — and produces true exactly when the first character of the text is
`'t'` (the empty string reads as NUL and encodes false). -/
theorem C7_bool_first_char :
    ∀ v : String,
      (sd_bus_message_append_pgsql_value 'b' BOOLOID (some v)
          = EncResult.ok (DBusValue.b true) ↔ v.data.head? = some 't') ∧
      ∃ bl : Bool, sd_bus_message_append_pgsql_value 'b' BOOLOID (some v)
        = EncResult.ok (DBusValue.b bl) := by
  intro v
  constructor
  · show (EncResult.ok (DBusValue.b (cFirstChar v = 't'))
        = EncResult.ok (DBusValue.b true) ↔ v.data.head? = some 't')
    unfold cFirstChar
    cases h : v.data with
    | nil => simp [h]
    | cons a t => simp [h, eq_comm]
  · exact ⟨_, rfl⟩

/-- Claim C9: string encoding is the identity on the text for every
text-like column type (xml, json, varchar, bpchar, name, text), including
the empty string. -/
theorem C9_string_identity :
    ∀ v : String,
      sd_bus_message_append_pgsql_value 's' XMLOID (some v) = EncResult.ok (DBusValue.s v) ∧
      sd_bus_message_append_pgsql_value 's' JSONOID (some v) = EncResult.ok (DBusValue.s v) ∧
      sd_bus_message_append_pgsql_value 's' VARCHAROID (some v) = EncResult.ok (DBusValue.s v) ∧
      sd_bus_message_append_pgsql_value 's' BPCHAROID (some v) = EncResult.ok (DBusValue.s v) ∧
      sd_bus_message_append_pgsql_value 's' NAMEOID (some v) = EncResult.ok (DBusValue.s v) ∧
      sd_bus_message_append_pgsql_value 's' TEXTOID (some v) = EncResult.ok (DBusValue.s v) := by
  intro v
  exact ⟨rfl, rfl, rfl, rfl, rfl, rfl⟩

/-- Claim C10: neither handler writes the ambient configuration — the
context (host and port) after a Ping or Query run is the one it started
with, for every request and every database world. -/
theorem C10_config_frame :
    ∀ (c : context) (pingRc : Nat) (arg : Option String) (w : DBWorld),
      (method_ping c pingRc).ctxAfter = c ∧ (method_query c arg w).ctxAfter = c := by
  intro c pingRc arg w
  refine ⟨rfl, ?_⟩
  cases arg with
  | none => rfl
  | some q =>
    show (if w.conn.status ≠ CONNECTION_OK then _ else _ : QueryTrace).ctxAfter = c
    split
    · rfl
    · split
      · rfl
      · split <;> rfl

/-- For a column type in the known domain and a non-NULL value, the encoder
always succeeds (whatever the tag — the dispatcher passes
`oid_to_signature oid`). -/
theorem append_ok_of_known (oid : Nat) (hmem : oid ∈ knownOids) (v : String) :
    ∃ dv, sd_bus_message_append_pgsql_value (oid_to_signature oid) oid (some v)
      = EncResult.ok dv := by
  fin_cases hmem <;> exact ⟨_, rfl⟩

/-- The field loop succeeds when every column's type is in the known domain
and every row-0 value it reads is present. -/
theorem buildRowFrom_ok (r : PGresultModel) :
    ∀ (l : List (String × Nat)) (i : Nat),
      (∀ p ∈ l, p.2 ∈ knownOids) →
      (∀ j, j < l.length → (PQgetvalue r 0 (i + j)).isSome = true) →
      ∃ es, buildRowFrom r i l = BuildResult.ok es := by
  intro l
  induction l with
  | nil => intro i _ _; exact ⟨[], rfl⟩
  | cons hd tl ih =>
    intro i hoids hvals
    obtain ⟨fname, oid⟩ := hd
    have hv0 : (PQgetvalue r 0 i).isSome = true := by
      simpa using hvals 0 (by simp)
    obtain ⟨v, hv⟩ := Option.isSome_iff_exists.mp hv0
    have hk : oid ∈ knownOids := hoids (fname, oid) (by simp)
    obtain ⟨dv, hdv⟩ := append_ok_of_known oid hk v
    obtain ⟨es, hes⟩ := ih (i + 1)
      (fun p hp => hoids p (List.mem_cons_of_mem _ hp))
      (fun j hj => by
        have hj1 := hvals (j + 1) (by simpa using Nat.succ_lt_succ hj)
        have e : i + (j + 1) = i + 1 + j := by omega
        rw [e] at hj1
        exact hj1)
    refine ⟨(fname, dv) :: es, ?_⟩
    simp [buildRowFrom, hv, hdv, hes]

/-- Claim C3, amended: a connection that does not reach `CONNECTION_OK`, or
an execution that does not reach `PGRES_TUPLES_OK`, is answered with the
empty/void success reply and logged to the diagnostic stream — and provided
every result column's type is in the known domain and every row-0 value it
reads is present, no error at all crosses the protocol boundary for a
well-typed request (an unsupported column type instead makes the handler
return a negative code, which the transport surfaces as a
non-`InvalidArguments` error — see the counterexample). -/
theorem C3_failsoft :
    ∀ (c : context) (q : String) (w : DBWorld),
      (w.conn.status ≠ CONNECTION_OK →
        (method_query c (some q) w).outcome = QueryOutcome.emptyReply ∧
        (method_query c (some q) w).logged
          = [connectLine c, "Connection to database failed: " ++ w.conn.errorMessage]) ∧
      (w.conn.status = CONNECTION_OK → w.result.status ≠ PGRES_TUPLES_OK →
        (method_query c (some q) w).outcome = QueryOutcome.emptyReply ∧
        (method_query c (some q) w).logged
          = [connectLine c, "query failed: " ++ w.conn.errorMessage]) ∧
      ((∀ p ∈ w.result.fields, p.2 ∈ knownOids) →
        (∀ i, i < w.result.fields.length → (PQgetvalue w.result 0 i).isSome = true) →
        crossesAsError (method_query c (some q) w).outcome = false) := by
  intro c q w
  refine ⟨?_, ?_, ?_⟩
  · intro hconn
    simp only [method_query]
    rw [if_pos hconn]
    exact ⟨rfl, rfl⟩
  · intro hok hres
    simp only [method_query]
    rw [if_neg (by simp [hok]), if_pos hres]
    exact ⟨rfl, rfl⟩
  · intro hoids hvals
    obtain ⟨es, hes⟩ := buildRowFrom_ok w.result w.result.fields 0 hoids
      (fun j hj => by simpa using hvals j hj)
    simp only [method_query]
    by_cases hc : w.conn.status ≠ CONNECTION_OK
    · rw [if_pos hc]; rfl
    · rw [if_neg hc]
      by_cases hr : w.result.status ≠ PGRES_TUPLES_OK
      · rw [if_pos hr]; rfl
      · rw [if_neg hr, hes]; rfl

/-- Claim C8: integer encoding round-trips every well-formed base-10 signed
integer string whose value fits the target width — `int16` (`INT2OID`,
wrapped through the `(int16_t)` cast), `int32` (`INT4OID` and `OIDOID`),
`int64` (`INT8OID`) — and a tail of non-digit garbage after the numeric
part changes nothing: `strtol` parses only the prefix and no error is
surfaced (the encoder still returns an `ok` value). -/
theorem C8_int_roundtrip (s : String) (n : Int) (h : SignedDecRepr s n) :
    (-32768 ≤ n → n < 32768 →
      sd_bus_message_append_pgsql_value 'n' INT2OID (some s)
        = EncResult.ok (DBusValue.n16 n)) ∧
    (-2147483648 ≤ n → n < 2147483648 →
      sd_bus_message_append_pgsql_value 'i' INT4OID (some s)
          = EncResult.ok (DBusValue.i32 n) ∧
      sd_bus_message_append_pgsql_value 'i' OIDOID (some s)
          = EncResult.ok (DBusValue.i32 n)) ∧
    (-9223372036854775808 ≤ n → n < 9223372036854775808 →
      sd_bus_message_append_pgsql_value 'x' INT8OID (some s)
        = EncResult.ok (DBusValue.x64 n)) ∧
    (∀ rest : List Char, rest.head?.all (fun c => !(isDigitC c)) = true →
      strtolModel ⟨s.data ++ rest⟩ = strtolModel s) := by
  obtain ⟨ds, hne, hd, hcase⟩ := h
  have key : ∀ rest : List Char, (∀ c, rest.head? = some c → isDigitC c = false) →
      strtolList (s.data ++ rest) = clampLong n := by
    intro rest hr
    obtain hspec := strtolList_spec ds rest hne hd hr
    rcases hcase with ⟨hdata, rfl⟩ | ⟨hdata, rfl⟩ | ⟨hdata, rfl⟩
    · rw [hdata]; exact hspec.1
    · rw [hdata, List.cons_append]; exact hspec.2.1
    · rw [hdata, List.cons_append]; exact hspec.2.2
  have hs0 : strtolModel s = clampLong n := by
    have h0 := key [] (fun c hc => by simp at hc)
    rw [List.append_nil] at h0
    exact h0
  refine ⟨?_, ?_, ?_, ?_⟩
  · intro hlo hhi
    have e : sd_bus_message_append_pgsql_value 'n' INT2OID (some s)
        = EncResult.ok (DBusValue.n16 (wrap16 (strtolModel s))) := rfl
    rw [e, hs0]
    have hw : wrap16 (clampLong n) = n := by
      unfold wrap16 clampLong; split_ifs <;> omega
    rw [hw]
  · intro hlo hhi
    have hw : wrap32 (clampLong n) = n := by
      unfold wrap32 clampLong; split_ifs <;> omega
    constructor
    · have e : sd_bus_message_append_pgsql_value 'i' INT4OID (some s)
          = EncResult.ok (DBusValue.i32 (wrap32 (strtolModel s))) := rfl
      rw [e, hs0, hw]
    · have e : sd_bus_message_append_pgsql_value 'i' OIDOID (some s)
          = EncResult.ok (DBusValue.i32 (wrap32 (strtolModel s))) := rfl
      rw [e, hs0, hw]
  · intro hlo hhi
    have e : sd_bus_message_append_pgsql_value 'x' INT8OID (some s)
        = EncResult.ok (DBusValue.x64 (strtolModel s)) := rfl
    rw [e, hs0]
    have hcl : clampLong n = n := by unfold clampLong; split_ifs <;> omega
    rw [hcl]
  · intro rest hrest
    have hr : ∀ c, rest.head? = some c → isDigitC c = false := by
      intro c hc
      rw [hc] at hrest
      simpa using hrest
    have e : strtolModel ⟨s.data ++ rest⟩ = strtolList (s.data ++ rest) := rfl
    rw [e, key rest hr, hs0]

/-- Witness for C8: the int16 round trip on `"123"`, the int32 round trip
on `"-7"`, the int64 round trip on `"+900"`, and prefix-only parsing of
`"45xy"`. -/
theorem C8_witness :
    sd_bus_message_append_pgsql_value 'n' INT2OID (some "123")
        = EncResult.ok (DBusValue.n16 123) ∧
    sd_bus_message_append_pgsql_value 'i' INT4OID (some "-7")
        = EncResult.ok (DBusValue.i32 (-7)) ∧
    sd_bus_message_append_pgsql_value 'x' INT8OID (some "+900")
        = EncResult.ok (DBusValue.x64 900) ∧
    strtolModel ⟨"45".data ++ ['x', 'y']⟩ = strtolModel "45" := by
  have h123 : SignedDecRepr "123" 123 :=
    ⟨['1', '2', '3'], by decide, by decide, Or.inl ⟨by decide, by decide⟩⟩
  have hm7 : SignedDecRepr "-7" (-7) :=
    ⟨['7'], by decide, by decide, Or.inr (Or.inr ⟨by decide, by decide⟩)⟩
  have h900 : SignedDecRepr "+900" 900 :=
    ⟨['9', '0', '0'], by decide, by decide, Or.inr (Or.inl ⟨by decide, by decide⟩)⟩
  have h45 : SignedDecRepr "45" 45 :=
    ⟨['4', '5'], by decide, by decide, Or.inl ⟨by decide, by decide⟩⟩
  exact ⟨(C8_int_roundtrip "123" 123 h123).1 (by decide) (by decide),
    ((C8_int_roundtrip "-7" (-7) hm7).2.1 (by decide) (by decide)).1,
    (C8_int_roundtrip "+900" 900 h900).2.2.1 (by decide) (by decide),
    (C8_int_roundtrip "45" 45 h45).2.2.2 ['x', 'y'] (by decide)⟩
